import Mathlib

/-!
Verification of the synchronization core of the 2048mail repository.

This file gives a shallow embedding, in Lean 4, of the parts of the code that
the specification's claims are about:

* `devserver/websockets/connection_manager.py` (`ConnectionManager`),
* `devserver/services/user_state_service.py` (`UserStateService`),
* `devserver/services/email_service.py` together with the task-state updates
  performed by `devserver/api/email_router.py` (`process_emails`),
* `tools/web_feedback.py` (the feedback rendezvous), and
* `tools/check_email.py` (`get_last_n_emails`, the tiered retrieval).

Python dictionaries preserve insertion order, so every dict keyed by a user id
or thread id is modelled as an insertion-ordered association list.  Blocking
calls are modelled by an explicit oracle argument listing the values that
arrive while the call is blocked.  Each embedded function keeps the name of
the Python function it translates.
-/

/-! ### Insertion-ordered association lists (Python dict model) -/

/-- Key lookup in an association list, first match wins
(Python `d[k]` / `d.get(k)` / `k in d`). -/
def alistFind {κ α : Type} [DecidableEq κ] (k : κ) : List (κ × α) → Option α
  | [] => none
  | (k', v) :: rest => if k' = k then some v else alistFind k rest

/-- Key update in an association list: an existing key is updated in place, a
new key is appended at the end (Python `d[k] = v`, which preserves the
position of an existing key and appends a fresh one). -/
def alistSet {κ α : Type} [DecidableEq κ] (k : κ) (v : α) : List (κ × α) → List (κ × α)
  | [] => [(k, v)]
  | (k', v') :: rest => if k' = k then (k, v) :: rest else (k', v') :: alistSet k v rest

theorem alistFind_set_self {κ α : Type} [DecidableEq κ] (k : κ) (v : α) :
    ∀ l : List (κ × α), alistFind k (alistSet k v l) = some v := by
  intro l
  induction l with
  | nil => simp [alistFind, alistSet]
  | cons p rest ih =>
    by_cases h : p.1 = k
    · simp [alistSet, alistFind, h]
    · simpa [alistSet, alistFind, h] using ih

theorem alistFind_set_ne {κ α : Type} [DecidableEq κ] (k k' : κ) (v : α) (h : k' ≠ k) :
    ∀ l : List (κ × α), alistFind k' (alistSet k v l) = alistFind k' l := by
  intro l
  induction l with
  | nil => simp [alistFind, alistSet, Ne.symm h]
  | cons p rest ih =>
    by_cases hp : p.1 = k
    · subst hp
      simp [alistSet, alistFind, Ne.symm h]
    · simp [alistSet, alistFind, hp]
      split <;> simp_all [alistFind]

theorem alistSet_keys_of_mem {κ α : Type} [DecidableEq κ] (k : κ) (v : α) :
    ∀ l : List (κ × α), (alistFind k l).isSome →
      (alistSet k v l).map Prod.fst = l.map Prod.fst := by
  intro l
  induction l with
  | nil => simp [alistFind]
  | cons p rest ih =>
    by_cases hp : p.1 = k
    · subst hp
      simp [alistSet, alistFind]
    · simp [alistSet, alistFind, hp]
      intro hmem
      exact ih (by simpa [alistFind, hp] using hmem)

theorem alistSet_keys_of_not_mem {κ α : Type} [DecidableEq κ] (k : κ) (v : α) :
    ∀ l : List (κ × α), alistFind k l = none →
      (alistSet k v l).map Prod.fst = l.map Prod.fst ++ [k] := by
  intro l
  induction l with
  | nil => simp [alistSet]
  | cons p rest ih =>
    by_cases hp : p.1 = k
    · simp [alistFind, hp]
    · simp [alistSet, alistFind, hp]
      intro hnone
      exact ih hnone

theorem alistFind_eq_none_of_not_mem {κ α : Type} [DecidableEq κ] (k : κ) :
    ∀ l : List (κ × α), alistFind k l = none → k ∉ l.map Prod.fst := by
  intro l
  induction l with
  | nil => simp
  | cons p rest ih =>
    intro h
    simp only [alistFind] at h
    split at h
    · exact absurd h (by simp)
    · rename_i hp
      simp only [List.map_cons, List.mem_cons]
      rintro (rfl | hmem)
      · exact hp rfl
      · exact ih h hmem

theorem mem_alistSet {κ α : Type} [DecidableEq κ] (k : κ) (v : α) :
    ∀ l : List (κ × α), ∀ p ∈ alistSet k v l, p = (k, v) ∨ p ∈ l := by
  intro l
  induction l with
  | nil => simp [alistSet]
  | cons q rest ih =>
    intro p hp
    by_cases hq : q.1 = k
    · simp only [alistSet, if_pos hq, List.mem_cons] at hp
      rcases hp with rfl | hp
      · exact Or.inl rfl
      · exact Or.inr (List.mem_cons_of_mem _ hp)
    · simp only [alistSet, if_neg hq, List.mem_cons] at hp
      rcases hp with rfl | hp
      · exact Or.inr (List.mem_cons_self _ _)
      · rcases ih p hp with h | h
        · exact Or.inl h
        · exact Or.inr (List.mem_cons_of_mem _ h)

/-! ### ConnectionRegistry — `devserver/websockets/connection_manager.py`

WebSocket handles are opaque; they are modelled as natural numbers.
`await websocket.accept()` and JSON payloads are transport details with no
effect on the registry state and are omitted; `send_to_user` is modelled by
the ordered list of connection handles the message is delivered to (the
Python loop attempts delivery to every listed connection, logging and
continuing on a failed send). -/

/-- State of `ConnectionManager`: `user_connections` maps a user id to the
list of its WebSocket connections (a `defaultdict(list)`), and
`connection_to_user` is the reverse map. -/
structure ConnectionManager where
  user_connections : List (String × List Nat)
  connection_to_user : List (Nat × String)
deriving DecidableEq, Repr

/-- `ConnectionManager.__init__`: both maps empty. -/
def ConnectionManager.init : ConnectionManager :=
  { user_connections := [], connection_to_user := [] }

/-- `ConnectionManager.connect`: appends the connection to the user's list
(creating the entry via the defaultdict if absent) and records the reverse
mapping. -/
def ConnectionManager.connect (cm : ConnectionManager) (ws : Nat) (user_id : String) :
    ConnectionManager :=
  { user_connections :=
      alistSet user_id (((alistFind user_id cm.user_connections).getD []) ++ [ws])
        cm.user_connections,
    connection_to_user := alistSet ws user_id cm.connection_to_user }

/-- `ConnectionManager.send_to_user`: the ordered list of connection handles
the message is delivered to — every connection currently listed for
`user_id`, or none (with a log line) if the user has no entry. -/
def ConnectionManager.send_to_user (cm : ConnectionManager) (user_id : String) : List Nat :=
  match alistFind user_id cm.user_connections with
  | some conns => conns
  | none => []

/-! ### UserStateStore — `devserver/services/user_state_service.py` -/

/-- `BackgroundTaskState` (from `devserver/models/user_state.py`).  The
`results` payload is opaque and modelled as an optional string. -/
structure BackgroundTaskState where
  running : Bool
  status : String
  results : Option String
  current_email : Option String
  feedback_required : Bool
  user_id : Option String
  thread_name : Option String
  draft_email : Option String
  draft_subject : Option String
  draft_recipient : Option String
deriving DecidableEq, Repr

/-- Field defaults of `BackgroundTaskState`. -/
def BackgroundTaskState.init : BackgroundTaskState :=
  { running := false, status := "idle", results := none, current_email := none,
    feedback_required := false, user_id := none, thread_name := none,
    draft_email := none, draft_subject := none, draft_recipient := none }

/-- The part of `UserStateService` state that `get_current_user_id` reads:
the process-wide last-connected user id pointer. -/
structure UserStateService where
  last_connected_user_id : Option String
deriving DecidableEq, Repr

/-- `UserStateService.set_last_connected_user_id` — called by
`websocket_endpoint` in `devserver/api/websocket_router.py` as soon as a
WebSocket client connects. -/
def UserStateService.set_last_connected_user_id (svc : UserStateService) (user_id : String) :
    UserStateService :=
  { svc with last_connected_user_id := some user_id }

/-- The request session, as `get_current_user_id` sees it: the value stored
under the session's `user_id` key, or `none` when the key is absent. -/
structure SessionData where
  user_id : Option String
deriving DecidableEq, Repr

/-- `UserStateService.get_current_user_id`.  `fresh_id` stands for the
`uuid.uuid4()` value generated when the session has no usable id.  Returns
the resolved user id and the (possibly updated) session.  Note the Python
truthiness test `if self._last_connected_user_id:` — the pointer wins
whenever it is set to a non-empty string, regardless of the session. -/
def UserStateService.get_current_user_id (svc : UserStateService) (session : SessionData)
    (fresh_id : String) : String × SessionData :=
  let session :=
    if session.user_id = none ∨ session.user_id = some "none" then
      { user_id := some fresh_id }
    else session
  match svc.last_connected_user_id with
  | some l => if l = "" then ((session.user_id).getD "", session) else (l, session)
  | none => ((session.user_id).getD "", session)

/-! ### Background worker — `devserver/services/email_service.py` and the
task-state updates of `process_emails` in `devserver/api/email_router.py` -/

/-- The task-state mutations performed by the `process_emails` endpoint
before it spawns the worker thread (lines 38-69 and 114 of
`email_router.py`), together with the endpoint's response status string.
`authenticated` models the credentials check; `last_connected` models
`user_state_service.get_last_connected_user_id()` (a non-empty value
replaces the session user id); `thread_name` is the spawned thread's name.
The endpoint returns `already_running` or `not_authenticated` without
touching the state; otherwise it sets `running := true`,
`status := "starting"`, clears `results`, and records the user id and
thread name. -/
def process_emails (st : BackgroundTaskState) (authenticated : Bool)
    (last_connected : Option String) (session_user thread_name : String) :
    BackgroundTaskState × String :=
  if st.running then (st, "already_running")
  else if ¬ authenticated then (st, "not_authenticated")
  else
    let uid :=
      match last_connected with
      | some l => if l = "" then session_user else l
      | none => session_user
    ({ st with running := true, status := "starting", results := none,
               user_id := some uid, thread_name := some thread_name },
     "started")

/-- `EmailService._process_emails_task` (leading underscore dropped): the
worker body calls the orchestrator inside a `try`, logs, and returns either
the results or, on any exception, `str(e)`.  `outcome` is the orchestrator
call's outcome (normal result or raised exception message).  The function
performs no update of the user's task state on any path: it neither sets a
`failed` status nor clears the `running` flag (the retired
`devserver/retired/fastapi_server.py` did both in a `finally` block that
this refactor dropped). -/
def process_emails_task (st : BackgroundTaskState) (outcome : Except String String) :
    BackgroundTaskState × String :=
  match outcome with
  | .ok results => (st, results)
  | .error e => (st, e)

/-! ### FeedbackBroker — `tools/web_feedback.py`

The module keeps three module-level globals: the registered connection
manager, the per-user feedback states (an insertion-ordered dict) and the
current user id.  `get_yes_no_feedback` blocks on the user's queue; the
blocking boundary is made explicit by splitting the function into
`feedback_setup` (everything the Python body executes before
`feedback_queue.get`) and the rendezvous itself.  The feedback values that
clients submit while the call is blocked, before the timeout elapses, are
passed in as the oracle list `incoming` (empty `incoming` with an empty
queue is the timeout).  Outbound WebSocket traffic is recorded as the list
of `(target user, message)` dispatches handed to
`ConnectionManager.send_to_user`; the `context` payload is kept as the
already-formatted optional string the code would send. -/

/-- `UserFeedbackState`: one user's rendezvous state.  The queue holds the
`feedback` booleans of the dicts put by `provide_feedback`. -/
structure UserFeedbackState where
  feedback_queue : List Bool
  waiting_for_feedback : Bool
  current_prompt : Option String
  current_decision : Option String
  current_context : Option String
  timeout : Nat
  thread_name : Option String
deriving DecidableEq, Repr

/-- `UserFeedbackState.__init__` (the `thread_name` attribute is only set
later via attribute assignment; `getattr` with default `None` reads it). -/
def UserFeedbackState.init : UserFeedbackState :=
  { feedback_queue := [], waiting_for_feedback := false, current_prompt := none,
    current_decision := none, current_context := none, timeout := 300,
    thread_name := none }

/-- `UserFeedbackState.reset`: clears the waiting flag, the pending
prompt/decision/context, and drains the queue.  `timeout` and
`thread_name` are left as they are. -/
def UserFeedbackState.reset (s : UserFeedbackState) : UserFeedbackState :=
  { s with waiting_for_feedback := false, current_prompt := none,
           current_decision := none, current_context := none,
           feedback_queue := [] }

/-- The module-level globals of `tools/web_feedback.py`:
`_connection_manager`, `_user_feedback_states`, `_current_user_id`. -/
structure WebFeedbackModule where
  connection_manager : Option ConnectionManager
  user_feedback_states : List (String × UserFeedbackState)
  current_user_id : Option String
deriving DecidableEq, Repr

/-- `set_current_user_id`. -/
def WebFeedbackModule.set_current_user_id (m : WebFeedbackModule) (user_id : String) :
    WebFeedbackModule :=
  { m with current_user_id := some user_id }

/-- `get_user_state`: get-or-create, inserting a fresh state at the end of
the dict when the user has none. -/
def WebFeedbackModule.get_user_state (m : WebFeedbackModule) (user_id : String) :
    UserFeedbackState × WebFeedbackModule :=
  match alistFind user_id m.user_feedback_states with
  | some s => (s, m)
  | none =>
    (UserFeedbackState.init,
     { m with user_feedback_states :=
         alistSet user_id UserFeedbackState.init m.user_feedback_states })

/-- The messages `tools/web_feedback.py` sends over a WebSocket. -/
inductive WsMessage where
  | feedback_required (prompt : String) (decision : Option String) (context : Option String)
  | feedback_timeout (message : String)
  | feedback_received
deriving DecidableEq, Repr

/-- The prompt-defaulting chain of `get_yes_no_feedback` (the `elif` ladder
over `decision` used when no prompt is supplied). -/
def format_prompt (prompt decision : Option String) : String :=
  match prompt with
  | some p => p
  | none =>
    match decision with
    | some "respond" => "I think we should respond."
    | some "no response needed" => "This email does not need a response."
    | some "decline" => "I think we should politely decline."
    | some "move forward" => "I think we should draft a response."
    | some "schedule meeting" => "I think we should setup a meeting."
    | some "yes" => "This is a meeting request that needs scheduling."
    | some "no" => "This is not just a meeting request and needs a full response."
    | some d => "The AI has decided: " ++ d
    | none => "The AI has decided: None"

/-- The thread-name fallback of `get_yes_no_feedback`: the first user whose
stored `thread_name` equals the calling thread's name. -/
def thread_detect (states : List (String × UserFeedbackState)) (cur_thread : String) :
    Option String :=
  match states with
  | [] => none
  | (uid, s) :: rest =>
    if s.thread_name = some cur_thread then some uid
    else thread_detect rest cur_thread

/-- User-id resolution at the top of `get_yes_no_feedback`: an explicit
`user_id` argument is used as given; otherwise the module's current user id
if truthy (set and non-empty); otherwise the thread-name fallback, whose
result must itself be truthy.  `none` means the Python code returns the
default `(True, "correct")` at this point. -/
def resolve_user (m : WebFeedbackModule) (user_id : Option String) (cur_thread : String) :
    Option String :=
  match user_id with
  | some u => some u
  | none =>
    match m.current_user_id with
    | some u =>
      if u = "" then
        match thread_detect m.user_feedback_states cur_thread with
        | some w => if w = "" then none else some w
        | none => none
      else some u
    | none =>
      match thread_detect m.user_feedback_states cur_thread with
      | some w => if w = "" then none else some w
      | none => none

/-- The WAITING transition `get_yes_no_feedback` applies to the stored state
of the target user before blocking: set the waiting flag and record the
pending prompt, decision, context, timeout and calling thread name. -/
def UserFeedbackState.beginWaiting (base : UserFeedbackState) (ptext : String)
    (d c : Option String) (T : Nat) (thr : String) : UserFeedbackState :=
  { base with
      waiting_for_feedback := true, current_prompt := some ptext,
      current_decision := d, current_context := c, timeout := T,
      thread_name := some thr }

/-- Outcome of the non-blocking prefix of `get_yes_no_feedback`: either the
function returns early with a result, or it has transitioned the (possibly
re-targeted) user to WAITING, dispatched the `feedback_required` message,
and is about to block on that user's queue. -/
inductive FeedbackSetup where
  | early (result : Bool × String) (state : WebFeedbackModule)
  | blocked (state : WebFeedbackModule) (uid : String) (sends : List (String × WsMessage))
deriving DecidableEq, Repr

/-- Everything `get_yes_no_feedback` executes before blocking on the queue:
the connection-manager guard, user-id resolution, the single-connected-user
fallback (which overwrites the module's current user id), prompt
formatting, the WAITING transition recording the request, and the
`feedback_required` dispatch. -/
def feedback_setup (m : WebFeedbackModule) (prompt decision context user_id : Option String)
    (timeout : Nat) (cur_thread : String) : FeedbackSetup :=
  match m.connection_manager with
  | none => .early (true, "correct") m
  | some cm =>
    match resolve_user m user_id cur_thread with
    | none => .early (true, "correct") m
    | some u0 =>
      let step : Option (String × WebFeedbackModule) :=
        if (alistFind u0 cm.user_connections).isSome then some (u0, m)
        else
          match cm.user_connections with
          | [(w, _)] => some (w, m.set_current_user_id w)
          | _ => none
      match step with
      | none => .early (true, "correct") m
      | some (uid, m1) =>
        let ptext := format_prompt prompt decision
        let (ustate, m2) := m1.get_user_state uid
        let ustate := ustate.beginWaiting ptext decision context timeout cur_thread
        let m3 := { m2 with
          user_feedback_states := alistSet uid ustate m2.user_feedback_states }
        .blocked m3 uid [(uid, .feedback_required ptext decision context)]

/-- `user_state.reset()` applied to the stored state of `uid`. -/
def WebFeedbackModule.reset_user (m : WebFeedbackModule) (uid : String) : WebFeedbackModule :=
  match alistFind uid m.user_feedback_states with
  | some s =>
    { m with user_feedback_states := alistSet uid s.reset m.user_feedback_states }
  | none => m

/-- Observable outcome of one `get_yes_no_feedback` call: the returned pair,
the module state it leaves behind, and the messages it dispatched. -/
structure FeedbackCall where
  result : Bool × String
  state : WebFeedbackModule
  sends : List (String × WsMessage)
deriving DecidableEq, Repr

/-- `get_yes_no_feedback`: the setup phase followed by the rendezvous.  The
blocking `feedback_queue.get(timeout=timeout)` consumes the first value of
the queue followed by the in-time arrivals `incoming`; if there is none,
the timeout path runs (dispatching the `feedback_timeout` notification and
returning the default affirmative outcome).  Both paths reset the user's
state before returning. -/
def get_yes_no_feedback (m : WebFeedbackModule) (prompt decision context user_id : Option String)
    (timeout : Nat) (cur_thread : String) (incoming : List Bool) : FeedbackCall :=
  match feedback_setup m prompt decision context user_id timeout cur_thread with
  | .early r m' => { result := r, state := m', sends := [] }
  | .blocked m1 uid sends =>
    let q := ((alistFind uid m1.user_feedback_states).getD UserFeedbackState.init).feedback_queue
    match q ++ incoming with
    | fb :: _ =>
      { result := (fb, if fb then "correct" else "wrong"),
        state := m1.reset_user uid,
        sends := sends }
    | [] =>
      { result := (true, "correct"),
        state := m1.reset_user uid,
        sends := sends ++
          [(uid, .feedback_timeout ("Feedback request timed out after " ++
            toString timeout ++ " seconds. Proceeding with default action."))] }

/-- The Python body of `get_yes_no_feedback` contains no `raise` statement
and its only `except` clause catches `queue.Empty`; every call returns
normally.  This wrapper records that fact: no input is mapped to `.error`
(in particular no `StateError` exists anywhere in the repository). -/
def get_yes_no_feedback_exc (m : WebFeedbackModule)
    (prompt decision context user_id : Option String) (timeout : Nat)
    (cur_thread : String) (incoming : List Bool) : Except String FeedbackCall :=
  .ok (get_yes_no_feedback m prompt decision context user_id timeout cur_thread incoming)

/-- Observable outcome of one `provide_feedback` call. -/
structure ProvideResult where
  accepted : Bool
  state : WebFeedbackModule
  sends : List (String × WsMessage)
deriving DecidableEq, Repr

/-- `provide_feedback`: if the user id is unknown, redirect to the unique
user currently waiting for feedback if there is exactly one, else reject;
then reject if the (possibly redirected) user is not waiting; otherwise put
the value on that user's queue and dispatch the `feedback_received`
acknowledgment. -/
def provide_feedback (m : WebFeedbackModule) (user_id : String) (feedback : Bool) :
    ProvideResult :=
  let uid? : Option String :=
    if (alistFind user_id m.user_feedback_states).isSome then some user_id
    else
      match (m.user_feedback_states.filter (fun p => p.2.waiting_for_feedback)).map Prod.fst with
      | [w] => some w
      | _ => none
  match uid? with
  | none => { accepted := false, state := m, sends := [] }
  | some uid =>
    let s := (alistFind uid m.user_feedback_states).getD UserFeedbackState.init
    if s.waiting_for_feedback then
      let s' := { s with feedback_queue := s.feedback_queue ++ [feedback] }
      { accepted := true,
        state := { m with user_feedback_states := alistSet uid s' m.user_feedback_states },
        sends := [(uid, .feedback_received)] }
    else { accepted := false, state := m, sends := [] }

/-! ### WorkItemSource — `tools/check_email.py` (`get_last_n_emails`)

The Gmail service is modelled as a pair of total response functions; page
tokens are opaque naturals.  The provider calls the algorithm issues are
recorded in order.  Pagination in the Python code can in principle run as
long as the provider keeps returning page tokens, so the page loop carries
explicit fuel; every property proved below holds for every fuel value.  The
tier list and the per-group message cap are hard-coded in the source
(`include_labels` / `exclude_labels` and `MAX_MESSAGES_PER_THREAD = 5`);
they are lifted to parameters here so that the configuration claims can be
stated, with the source's constants given as definitions below. -/

/-- One entry of a `messages().list` response (the `fields` parameter
restricts it to `id` and `threadId`). -/
structure MsgRef where
  id : String
  threadId : String
deriving DecidableEq, Repr

/-- A `messages().list` response page. -/
structure ListResponse where
  messages : List MsgRef
  nextPageToken : Option Nat
deriving DecidableEq, Repr

/-- The part of a full `messages().get` response the algorithm reads. -/
structure FullMessage where
  labelIds : List String
deriving DecidableEq, Repr

/-- The provider: responses to `list` (by inclusion labels, exclusion
labels of the `q` string, and page token) and to `get` (by message id). -/
structure GmailService where
  listPage : List String → List String → Option Nat → ListResponse
  getMessage : String → FullMessage

/-- A provider call, as recorded in the call trace. -/
inductive ProviderCall where
  | listCall (includeLabels excludeLabels : List String) (pageToken : Option Nat)
  | getCall (id : String)
deriving DecidableEq, Repr

/-- A collected message: `messageId` (copied from `id`), `threadId`, and the
1-based `order` within its thread. -/
structure ThreadMsg where
  messageId : String
  threadId : String
  order : Nat
deriving DecidableEq, Repr

/-- The thread accumulator: an insertion-ordered dict from thread id to the
collected messages of that thread. -/
abbrev ThreadAcc : Type := List (String × List ThreadMsg)

/-- Appending one kept message to the accumulator: a new thread is created
with the message at order 1; an existing thread is extended (with order
`count + 1`) only while below the cap. -/
def addMessage (threads : ThreadAcc) (maxPer : Nat) (mid tid : String) : ThreadAcc :=
  match alistFind tid threads with
  | none => alistSet tid [⟨mid, tid, 1⟩] threads
  | some msgs =>
    if msgs.length < maxPer then
      alistSet tid (msgs ++ [⟨mid, tid, msgs.length + 1⟩]) threads
    else threads

/-- The `for msg in msgs` loop body: stop once enough threads are collected;
otherwise fetch the full message, discard it if any current exclusion label
appears among its labels, and otherwise add it to its thread. -/
def processMsgs (svc : GmailService) (maxPer numThreads : Nat) (excl : List String) :
    List MsgRef → ThreadAcc → List ProviderCall → ThreadAcc × List ProviderCall
  | [], threads, calls => (threads, calls)
  | msg :: rest, threads, calls =>
    if numThreads ≤ threads.length then (threads, calls)
    else
      let full := svc.getMessage msg.id
      let calls' := calls ++ [.getCall msg.id]
      if excl.any (fun l => full.labelIds.contains l) then
        processMsgs svc maxPer numThreads excl rest threads calls'
      else
        processMsgs svc maxPer numThreads excl rest (addMessage threads maxPer msg.id msg.threadId) calls'

/-- The page loop of one label combination
(`while len(threads) < num_threads and (first_page or page_token is not None)`):
issue the `list` call, stop on an empty page, process the returned
messages, and continue with the next page token if one was returned. -/
def processPages (svc : GmailService) (maxPer numThreads : Nat) (excl incl : List String) :
    Nat → Option Nat → Bool → ThreadAcc → List ProviderCall → ThreadAcc × List ProviderCall
  | 0, _, _, threads, calls => (threads, calls)
  | fuel + 1, pageToken, firstPage, threads, calls =>
    if numThreads ≤ threads.length then (threads, calls)
    else if firstPage = false ∧ pageToken = none then (threads, calls)
    else
      let resp := svc.listPage incl excl pageToken
      let calls' := calls ++ [.listCall incl excl pageToken]
      if resp.messages.isEmpty then (threads, calls')
      else
        let r := processMsgs svc maxPer numThreads excl resp.messages threads calls'
        match resp.nextPageToken with
        | none => r
        | some t => processPages svc maxPer numThreads excl incl fuel (some t) false r.1 r.2

/-- The outer label-combination loop
(`while len(threads) < num_threads and has_more_label_combinations`): the
two label lists are advanced in lockstep, so the loop ends as soon as
either iterator is exhausted. -/
def processTiers (svc : GmailService) (maxPer numThreads fuel : Nat) :
    List (List String) → List (List String) → ThreadAcc → List ProviderCall →
    ThreadAcc × List ProviderCall
  | [], _, threads, calls => (threads, calls)
  | _ :: _, [], threads, calls => (threads, calls)
  | excl :: exclRest, incl :: inclRest, threads, calls =>
    if numThreads ≤ threads.length then (threads, calls)
    else
      let r := processPages svc maxPer numThreads excl incl fuel none true threads calls
      processTiers svc maxPer numThreads fuel exclRest inclRest r.1 r.2

/-- The body of `get_last_n_emails`: if either label list is empty the
initial `next()` raises `StopIteration`, which is caught and answered with
an empty result before any provider call; otherwise the tier loop runs and
the collected threads are flattened in insertion order and truncated to the
first `numThreads`. -/
def get_last_n_emails_run (svc : GmailService) (excludeTiers includeTiers : List (List String))
    (maxPer numThreads fuel : Nat) : ThreadAcc × List ProviderCall :=
  match excludeTiers, includeTiers with
  | [], _ => ([], [])
  | _ :: _, [] => ([], [])
  | e :: es, i :: irest =>
    let r := processTiers svc maxPer numThreads fuel (e :: es) (i :: irest) [] []
    (r.1.take numThreads, r.2)

/-- `get_last_n_emails` contains no `raise` statement of its own (provider
errors are the provider's, and the provider is modelled as total), so every
call returns normally; the wrapper records that no input is mapped to
`.error` (there is no ConfigError anywhere in the repository). -/
def get_last_n_emails (svc : GmailService) (excludeTiers includeTiers : List (List String))
    (maxPer numThreads fuel : Nat) : Except String (ThreadAcc × List ProviderCall) :=
  .ok (get_last_n_emails_run svc excludeTiers includeTiers maxPer numThreads fuel)

/-- The exclusion-label combinations hard-coded in `get_last_n_emails`. -/
def sourceExcludeLabels : List (List String) :=
  [["CATEGORY_SOCIAL", "CATEGORY_PROMOTIONS", "CATEGORY_UPDATES", "CATEGORY_FORUMS"],
   ["CATEGORY_SOCIAL", "CATEGORY_PROMOTIONS", "CATEGORY_UPDATES", "CATEGORY_FORUMS", "UNREAD"],
   ["CATEGORY_SOCIAL", "CATEGORY_PROMOTIONS", "CATEGORY_UPDATES", "CATEGORY_FORUMS", "IMPORTANT"],
   ["CATEGORY_SOCIAL", "CATEGORY_PROMOTIONS", "CATEGORY_UPDATES", "CATEGORY_FORUMS", "IMPORTANT", "READ"]]

/-- The inclusion-label tiers hard-coded in `get_last_n_emails`. -/
def sourceIncludeLabels : List (List String) :=
  [["UNREAD", "INBOX", "IMPORTANT"], ["INBOX", "IMPORTANT"], ["UNREAD", "INBOX"], ["INBOX"]]

/-- `MAX_MESSAGES_PER_THREAD` from the source. -/
def sourceMaxMessagesPerThread : Nat := 5

/-! ### Concrete fixtures used by counterexamples and witnesses -/

/-- A small concrete provider: the first source tier returns two messages of
thread `t1` and one excluded message of thread `t2`; every other query
returns an empty page. -/
def sampleService : GmailService :=
  { listPage := fun incl _ _ =>
      if incl = ["UNREAD", "INBOX", "IMPORTANT"] then
        { messages := [⟨"m1", "t1"⟩, ⟨"m2", "t1"⟩, ⟨"m3", "t2"⟩], nextPageToken := none }
      else { messages := [], nextPageToken := none },
    getMessage := fun mid =>
      if mid = "m3" then { labelIds := ["CATEGORY_SOCIAL"] }
      else { labelIds := ["INBOX"] } }

/-- A feedback state that is WAITING on a pending request. -/
def sampleWaitingState : UserFeedbackState :=
  { feedback_queue := [], waiting_for_feedback := true,
    current_prompt := some "Old question?", current_decision := some "respond",
    current_context := none, timeout := 300, thread_name := some "T0" }

/-- Module state in which user `alice` is connected and already WAITING. -/
def waitingAliceModule : WebFeedbackModule :=
  { connection_manager := some ⟨[("alice", [1])], [(1, "alice")]⟩,
    user_feedback_states := [("alice", sampleWaitingState)],
    current_user_id := some "alice" }

/-- Module state in which only `wendy` is connected and WAITING; `alice` has
no feedback state at all. -/
def waitingWendyModule : WebFeedbackModule :=
  { connection_manager := some ⟨[("wendy", [2])], [(2, "wendy")]⟩,
    user_feedback_states := [("wendy", sampleWaitingState)],
    current_user_id := some "wendy" }

/-- Module state with an idle `bob` entry next to the waiting `wendy`. -/
def idleBobModule : WebFeedbackModule :=
  { connection_manager := some ⟨[("wendy", [2])], [(2, "wendy")]⟩,
    user_feedback_states := [("wendy", sampleWaitingState), ("bob", UserFeedbackState.init)],
    current_user_id := some "wendy" }

/-- Module state in which two users are WAITING and a third is unknown. -/
def twoWaitingModule : WebFeedbackModule :=
  { connection_manager := none,
    user_feedback_states := [("wendy", sampleWaitingState), ("walt", sampleWaitingState)],
    current_user_id := none }

/-! ### C8 — register is not idempotent per connection -/

/-- C8 counterexample: registering connection 7 under `alice` twice, starting
from the empty registry, does not leave the registry in the state one
registration produces, and a subsequent send delivers to connection 7
twice, not once. -/
theorem connect_twice_double_delivery :
    ConnectionManager.connect (ConnectionManager.connect ConnectionManager.init 7 "alice") 7 "alice"
        ≠ ConnectionManager.connect ConnectionManager.init 7 "alice" ∧
    (ConnectionManager.connect (ConnectionManager.connect ConnectionManager.init 7 "alice") 7 "alice").send_to_user
        "alice" = [7, 7] := by
  decide

/-- C8 amended: `connect` appends unconditionally, so a second registration
of the same connection under the same user adds a duplicate entry: after
registering twice, a send to that user delivers one more copy to the
connection than after registering once. -/
theorem connect_twice_appends_duplicate (cm : ConnectionManager) (ws : Nat) (u : String) :
    ((cm.connect ws u).connect ws u).send_to_user u = (cm.connect ws u).send_to_user u ++ [ws] := by
  simp [ConnectionManager.connect, ConnectionManager.send_to_user, alistFind_set_self]

/-! ### C9 — the last-connected user id shadows every session -/

/-- C9: once a WebSocket client has connected under a (non-empty) user id `w`
— which runs `set_last_connected_user_id w` — `get_current_user_id` answers
`w` for every subsequent request, whatever session the request carries: two
requests from different sessions resolve to the same identity. -/
theorem current_user_id_ignores_session (svc : UserStateService) (w : String) (hw : w ≠ "")
    (s1 s2 : SessionData) (f1 f2 : String) :
    ((svc.set_last_connected_user_id w).get_current_user_id s1 f1).1 =
      ((svc.set_last_connected_user_id w).get_current_user_id s2 f2).1 ∧
    ((svc.set_last_connected_user_id w).get_current_user_id s1 f1).1 = w := by
  simp [UserStateService.set_last_connected_user_id, UserStateService.get_current_user_id, hw]

/-- C9 witness: with the last-connected id `alice`, a request whose session
says `bob` and a request with no session both resolve to `alice`. -/
theorem current_user_id_ignores_session_witness :
    (((⟨none⟩ : UserStateService).set_last_connected_user_id "alice").get_current_user_id
        ⟨some "bob"⟩ "u1").1 =
      (((⟨none⟩ : UserStateService).set_last_connected_user_id "alice").get_current_user_id
        ⟨none⟩ "u2").1 ∧
    (((⟨none⟩ : UserStateService).set_last_connected_user_id "alice").get_current_user_id
        ⟨some "bob"⟩ "u1").1 = "alice" :=
  current_user_id_ignores_session ⟨none⟩ "alice" (by decide) ⟨some "bob"⟩ ⟨none⟩ "u1" "u2"

/-! ### C6 — the worker never sets `failed` and never clears `running` -/

/-- C6: starting a task sets `running := true` and `status := "starting"`;
when the orchestrator then raises, the worker body merely logs and returns
the exception message — it leaves `running` set and the status at
`"starting"`, never `"failed"`.  (The retired
`devserver/retired/fastapi_server.py` cleared the flag and set `"failed"`
in a `finally` block; the live `email_service.py` refactor has no such
release on any exit path.) -/
theorem worker_failure_leaves_running (st : BackgroundTaskState)
    (e session_user thr : String) (hrun : st.running = false) :
    (process_emails_task (process_emails st true none session_user thr).1 (.error e)).1.running = true ∧
    (process_emails_task (process_emails st true none session_user thr).1 (.error e)).1.status = "starting" ∧
    (process_emails_task (process_emails st true none session_user thr).1 (.error e)).1.status ≠ "failed" ∧
    (process_emails_task (process_emails st true none session_user thr).1 (.error e)).2 = e := by
  simp [process_emails, process_emails_task, hrun]

/-- C6 witness: a fresh user state, an authenticated start, and an
orchestrator that raises `boom`. -/
theorem worker_failure_leaves_running_witness :
    (process_emails_task (process_emails BackgroundTaskState.init true none "alice" "Thread-1").1
        (.error "boom")).1.running = true ∧
    (process_emails_task (process_emails BackgroundTaskState.init true none "alice" "Thread-1").1
        (.error "boom")).1.status = "starting" ∧
    (process_emails_task (process_emails BackgroundTaskState.init true none "alice" "Thread-1").1
        (.error "boom")).1.status ≠ "failed" ∧
    (process_emails_task (process_emails BackgroundTaskState.init true none "alice" "Thread-1").1
        (.error "boom")).2 = "boom" :=
  worker_failure_leaves_running BackgroundTaskState.init "boom" "alice" "Thread-1" rfl

/-! ### C7 — empty tier list returns empty, no ConfigError, no cap check -/

/-- C7 counterexample: with an empty tier list the retrieval returns the
empty result normally (`.ok`, no ConfigError raised) with zero provider
calls; and with cap 0 it does not fail either — it proceeds and makes
provider calls. -/
theorem retrieval_no_config_error :
    get_last_n_emails sampleService [] sourceIncludeLabels 5 10 4 = .ok ([], []) ∧
    (get_last_n_emails sampleService sourceExcludeLabels sourceIncludeLabels 0 2 4).isOk = true ∧
    (get_last_n_emails_run sampleService sourceExcludeLabels sourceIncludeLabels 0 2 4).2 ≠ [] := by
  refine ⟨rfl, rfl, ?_⟩
  decide

/-- C7 amended: if either hard-coded label list is empty, `get_last_n_emails`
catches the initial `StopIteration`, logs, and returns the empty result
before any provider call — no ConfigError exists in the code; a
non-positive cap is never validated (the counterexample above shows the cap-0
run proceeding to the provider). -/
theorem retrieval_empty_tiers_returns_empty (svc : GmailService)
    (incT excT : List (List String)) (e : List String) (M N fuel : Nat) :
    get_last_n_emails svc [] incT M N fuel = .ok ([], []) ∧
    get_last_n_emails svc (e :: excT) [] M N fuel = .ok ([], []) := by
  exact ⟨rfl, rfl⟩

/-! ### Helper lemmas for the feedback rendezvous -/

theorem alistSet_set_self {κ α : Type} [DecidableEq κ] (k : κ) (v w : α) :
    ∀ l : List (κ × α), alistSet k v (alistSet k w l) = alistSet k v l := by
  intro l
  induction l with
  | nil => simp [alistSet]
  | cons p rest ih =>
    by_cases hp : p.1 = k
    · simp [alistSet, hp]
    · simp [alistSet, hp, ih]

/-- The stored base state the setup phase updates: the user's current entry,
or a fresh one if the user has none yet. -/
def WebFeedbackModule.stored (m : WebFeedbackModule) (u : String) : UserFeedbackState :=
  (alistFind u m.user_feedback_states).getD UserFeedbackState.init

/-- When the target user is connected, the setup phase of
`get_yes_no_feedback` transitions that user to WAITING — overwriting
whatever the stored state held — and dispatches the `feedback_required`
message to them. -/
theorem feedback_setup_connected (m : WebFeedbackModule) (cm : ConnectionManager)
    (p d c : Option String) (u : String) (T : Nat) (thr : String)
    (hcm : m.connection_manager = some cm)
    (hconn : (alistFind u cm.user_connections).isSome = true) :
    feedback_setup m p d c (some u) T thr =
      .blocked
        { m with
            user_feedback_states :=
              alistSet u ((m.stored u).beginWaiting (format_prompt p d) d c T thr)
                m.user_feedback_states }
        u [(u, .feedback_required (format_prompt p d) d c)] := by
  cases hfind : alistFind u m.user_feedback_states with
  | some s =>
    simp [feedback_setup, hcm, resolve_user, hconn, WebFeedbackModule.get_user_state, hfind,
      WebFeedbackModule.stored]
  | none =>
    simp [feedback_setup, hcm, resolve_user, hconn, WebFeedbackModule.get_user_state, hfind,
      alistSet_set_self, WebFeedbackModule.stored]

/-- Resetting the user just written by `alistSet` stores the reset state. -/
theorem reset_user_set (m : WebFeedbackModule) (u : String) (s : UserFeedbackState) :
    WebFeedbackModule.reset_user
        { m with user_feedback_states := alistSet u s m.user_feedback_states } u =
      { m with user_feedback_states := alistSet u s.reset m.user_feedback_states } := by
  simp [WebFeedbackModule.reset_user, alistFind_set_self, alistSet_set_self]

/-! ### C2 — timeout returns the default and resets to IDLE -/

/-- C2: a `get_yes_no_feedback` call for a connected user whose stored queue
is empty, with no `provide_feedback` arriving before the timeout elapses
(`incoming = []`), returns the default `(true, "correct")`, dispatches the
`feedback_required` prompt and then the `feedback_timeout` notification to
that user via the connection registry, and leaves the user's state reset to
IDLE: waiting flag cleared, pending prompt/decision/context cleared, queue
drained. -/
theorem feedback_timeout_defaults_and_resets (m : WebFeedbackModule) (cm : ConnectionManager)
    (u : String) (p d c : Option String) (T : Nat) (thr : String)
    (hcm : m.connection_manager = some cm)
    (hconn : (alistFind u cm.user_connections).isSome = true)
    (hq : (m.stored u).feedback_queue = []) :
    (get_yes_no_feedback m p d c (some u) T thr []).result = (true, "correct") ∧
    (get_yes_no_feedback m p d c (some u) T thr []).sends =
      [(u, .feedback_required (format_prompt p d) d c),
       (u, .feedback_timeout ("Feedback request timed out after " ++ toString T ++
            " seconds. Proceeding with default action."))] ∧
    ∃ s, alistFind u (get_yes_no_feedback m p d c (some u) T thr
          []).state.user_feedback_states = some s ∧
      s.waiting_for_feedback = false ∧ s.current_prompt = none ∧
      s.current_decision = none ∧ s.current_context = none ∧ s.feedback_queue = [] := by
  have hsetup := feedback_setup_connected m cm p d c u T thr hcm hconn
  refine ⟨?_, ?_, ?_⟩
  · simp [get_yes_no_feedback, hsetup, alistFind_set_self, UserFeedbackState.beginWaiting, hq]
  · simp [get_yes_no_feedback, hsetup, alistFind_set_self, UserFeedbackState.beginWaiting, hq]
  · refine ⟨((m.stored u).beginWaiting (format_prompt p d) d c T thr).reset,
      ?_, rfl, rfl, rfl, rfl, rfl⟩
    simp [get_yes_no_feedback, hsetup, alistFind_set_self, UserFeedbackState.beginWaiting, hq,
      reset_user_set]

/-- Module state in which `alice` is connected and completely idle (no
feedback state yet). -/
def idleAliceModule : WebFeedbackModule :=
  { connection_manager := some ⟨[("alice", [1])], [(1, "alice")]⟩,
    user_feedback_states := [], current_user_id := some "alice" }

/-- C2 witness: a concrete 60-second request to the connected, idle `alice`
with no feedback arriving. -/
theorem feedback_timeout_defaults_and_resets_witness :
    (get_yes_no_feedback idleAliceModule (some "Proceed?") none none (some "alice")
        60 "T1" []).result = (true, "correct") ∧
    (get_yes_no_feedback idleAliceModule (some "Proceed?") none none (some "alice")
        60 "T1" []).sends =
      [("alice", .feedback_required (format_prompt (some "Proceed?") none) none none),
       ("alice", .feedback_timeout ("Feedback request timed out after " ++ toString 60 ++
            " seconds. Proceeding with default action."))] ∧
    ∃ s, alistFind "alice" (get_yes_no_feedback idleAliceModule (some "Proceed?") none none
          (some "alice") 60 "T1" []).state.user_feedback_states = some s ∧
      s.waiting_for_feedback = false ∧ s.current_prompt = none ∧
      s.current_decision = none ∧ s.current_context = none ∧ s.feedback_queue = [] :=
  feedback_timeout_defaults_and_resets idleAliceModule ⟨[("alice", [1])], [(1, "alice")]⟩
    "alice" (some "Proceed?") none none 60 "T1" rfl rfl rfl

/-! ### C1 — a second request while WAITING overwrites silently -/

/-- C1 counterexample: `alice` is already WAITING on the pending prompt `Old
question?`; a second `get_yes_no_feedback` call for her does not raise any
error (`.ok`), and its very first dispatched message is a fresh
`feedback_required` carrying the new prompt — the pending request has been
silently replaced, as the stored prompt right after the setup phase also
shows. -/
theorem get_yes_no_feedback_waiting_no_error :
    (get_yes_no_feedback_exc waitingAliceModule (some "New question?") none none
        (some "alice") 60 "T1" []).isOk = true ∧
    (get_yes_no_feedback waitingAliceModule (some "New question?") none none
        (some "alice") 60 "T1" []).sends.head? =
      some ("alice", .feedback_required "New question?" none none) ∧
    (match feedback_setup waitingAliceModule (some "New question?") none none
        (some "alice") 60 "T1" with
      | .blocked m' _ _ => (alistFind "alice" m'.user_feedback_states).map
          (fun s => s.current_prompt)
      | .early _ _ => none) = some (some "New question?") := by
  decide

/-- C1 amended: calling `get_yes_no_feedback` for a connected user whose
state is already WAITING raises nothing: the setup phase overwrites the
stored pending prompt/decision/context with the new request and dispatches
a fresh `feedback_required` message, then blocks as usual. -/
theorem get_yes_no_feedback_overwrites_pending (m : WebFeedbackModule) (cm : ConnectionManager)
    (u : String) (pnew : String) (d c : Option String) (T : Nat) (thr : String)
    (s : UserFeedbackState)
    (hcm : m.connection_manager = some cm)
    (hconn : (alistFind u cm.user_connections).isSome = true)
    (hs : alistFind u m.user_feedback_states = some s)
    (_hw : s.waiting_for_feedback = true) :
    feedback_setup m (some pnew) d c (some u) T thr =
      .blocked
        { m with
            user_feedback_states :=
              alistSet u (s.beginWaiting pnew d c T thr) m.user_feedback_states }
        u [(u, .feedback_required pnew d c)] := by
  have h := feedback_setup_connected m cm (some pnew) d c u T thr hcm hconn
  rw [h]
  simp [WebFeedbackModule.stored, hs, format_prompt]

/-- C1 witness: the amended behaviour at the concrete WAITING `alice`. -/
theorem get_yes_no_feedback_overwrites_pending_witness :
    feedback_setup waitingAliceModule (some "New question?") none none (some "alice") 60 "T1" =
      .blocked
        { waitingAliceModule with
            user_feedback_states :=
              alistSet "alice" (sampleWaitingState.beginWaiting "New question?" none none 60 "T1")
                waitingAliceModule.user_feedback_states }
        "alice" [("alice", .feedback_required "New question?" none none)] :=
  get_yes_no_feedback_overwrites_pending waitingAliceModule
    ⟨[("alice", [1])], [(1, "alice")]⟩ "alice" "New question?" none none 60 "T1"
    sampleWaitingState rfl rfl rfl rfl

/-! ### C3 — submit for a non-waiting user: rejection vs. redirection -/

/-- C3 counterexample: `alice` has no feedback state (so her state is not
WAITING), yet `provide_feedback("alice", true)` returns `true`, enqueues
the value on `wendy`'s queue — the one user currently waiting — and sends
`wendy` the acknowledgment: the call is accepted and has a side effect on
another user's queue. -/
theorem provide_feedback_unknown_user_redirected :
    (provide_feedback waitingWendyModule "alice" true).accepted = true ∧
    (provide_feedback waitingWendyModule "alice" true).state ≠ waitingWendyModule ∧
    ((alistFind "wendy" (provide_feedback waitingWendyModule "alice"
        true).state.user_feedback_states).map (fun s => s.feedback_queue)) = some [true] ∧
    (provide_feedback waitingWendyModule "alice" true).sends =
      [("wendy", .feedback_received)] := by
  decide

/-- C3 amended: `provide_feedback(u, v)` returns `false` with no state
change and no message when `u` has a stored state that is not WAITING, and
likewise when `u` has no stored state and the number of waiting users is
not exactly one; but when `u` is unknown and exactly one user is waiting,
the feedback is silently redirected to that user (the counterexample
above). -/
theorem provide_feedback_not_waiting_rejected (m : WebFeedbackModule) (u : String) (v : Bool) :
    (∀ s, alistFind u m.user_feedback_states = some s → s.waiting_for_feedback = false →
      provide_feedback m u v = ⟨false, m, []⟩) ∧
    (alistFind u m.user_feedback_states = none →
      (m.user_feedback_states.filter (fun q => q.2.waiting_for_feedback)).length ≠ 1 →
      provide_feedback m u v = ⟨false, m, []⟩) := by
  constructor
  · intro s hs hw
    simp [provide_feedback, hs, hw]
  · intro hnone hlen
    have hmap : ((m.user_feedback_states.filter
        (fun q => q.2.waiting_for_feedback)).map Prod.fst).length ≠ 1 := by
      simpa using hlen
    cases hfl : (m.user_feedback_states.filter
        (fun q => q.2.waiting_for_feedback)).map Prod.fst with
    | nil => simp [provide_feedback, hnone, hfl]
    | cons w tl =>
      cases tl with
      | nil => exact absurd (by rw [hfl]; rfl) hmap
      | cons x tl2 => simp [provide_feedback, hnone, hfl]

/-- C3 witness: `bob` has an idle stored state (rejected without side
effect); `alice` is unknown while two users are waiting (also rejected
without side effect). -/
theorem provide_feedback_not_waiting_rejected_witness :
    provide_feedback idleBobModule "bob" true = ⟨false, idleBobModule, []⟩ ∧
    provide_feedback twoWaitingModule "alice" true = ⟨false, twoWaitingModule, []⟩ :=
  ⟨(provide_feedback_not_waiting_rejected idleBobModule "bob" true).1
      UserFeedbackState.init rfl rfl,
   (provide_feedback_not_waiting_rejected twoWaitingModule "alice" true).2 rfl (by decide)⟩

/-! ### C10 — behaviour when the target user has no connections -/

/-- Module state with two connected users and no feedback state. -/
def twoConnectedModule : WebFeedbackModule :=
  { connection_manager := some ⟨[("wendy", [2]), ("walt", [3])], [(2, "wendy"), (3, "walt")]⟩,
    user_feedback_states := [], current_user_id := none }

/-- C10: `get_yes_no_feedback` called for a user `u` with no registered
connections: (1) with no registered connection manager it returns
`(true, "correct")` immediately, sending nothing and changing no state;
(2) if exactly one user is connected — necessarily a different one, since
`u` has no entry — the request is silently re-targeted to that user `w`:
the module's current user id is overwritten to `w`, `w` is transitioned to
WAITING, the `feedback_required` prompt is dispatched to `w`, and the call
blocks on `w`'s queue; (3) if the number of connected users is not one
(zero or several), it returns `(true, "correct")` immediately, sending
nothing and changing no state. -/
theorem get_yes_no_feedback_connection_fallback (m : WebFeedbackModule) (cm : ConnectionManager)
    (p d c : Option String) (u : String) (T : Nat) (thr : String) (inc : List Bool)
    (w : String) (conns : List Nat) :
    (m.connection_manager = none →
      get_yes_no_feedback m p d c (some u) T thr inc = ⟨(true, "correct"), m, []⟩) ∧
    (m.connection_manager = some cm →
      alistFind u cm.user_connections = none →
      cm.user_connections = [(w, conns)] →
      feedback_setup m p d c (some u) T thr =
        .blocked
          { m with
              current_user_id := some w,
              user_feedback_states :=
                alistSet w ((m.stored w).beginWaiting (format_prompt p d) d c T thr)
                  m.user_feedback_states }
          w [(w, .feedback_required (format_prompt p d) d c)]) ∧
    (m.connection_manager = some cm →
      alistFind u cm.user_connections = none →
      cm.user_connections.length ≠ 1 →
      get_yes_no_feedback m p d c (some u) T thr inc = ⟨(true, "correct"), m, []⟩) := by
  refine ⟨?_, ?_, ?_⟩
  · intro h
    simp [get_yes_no_feedback, feedback_setup, h]
  · intro hcm hfind hsing
    rw [hsing] at hfind
    cases hfindw : alistFind w m.user_feedback_states with
    | some s =>
      simp [feedback_setup, hcm, resolve_user, hfind, hsing, WebFeedbackModule.get_user_state,
        WebFeedbackModule.set_current_user_id, WebFeedbackModule.stored, hfindw]
    | none =>
      simp [feedback_setup, hcm, resolve_user, hfind, hsing, WebFeedbackModule.get_user_state,
        WebFeedbackModule.set_current_user_id, WebFeedbackModule.stored, hfindw,
        alistSet_set_self]
  · intro hcm hfind hlen
    rcases huc : cm.user_connections with _ | ⟨⟨w1, c1⟩, _ | ⟨⟨w2, c2⟩, rest⟩⟩
    · rw [huc] at hfind
      simp [get_yes_no_feedback, feedback_setup, hcm, resolve_user, hfind, huc]
    · rw [huc] at hlen
      simp at hlen
    · rw [huc] at hfind
      simp [get_yes_no_feedback, feedback_setup, hcm, resolve_user, hfind, huc]

/-- C10 witness: the three branches at concrete states — no manager, one
other connected user (`wendy`), and two connected users. -/
theorem get_yes_no_feedback_connection_fallback_witness :
    get_yes_no_feedback twoWaitingModule (some "Go?") none none (some "alice") 60 "T2" [] =
      ⟨(true, "correct"), twoWaitingModule, []⟩ ∧
    feedback_setup waitingWendyModule (some "Go?") none none (some "alice") 60 "T2" =
      .blocked
        { waitingWendyModule with
            current_user_id := some "wendy",
            user_feedback_states :=
              alistSet "wendy" ((waitingWendyModule.stored "wendy").beginWaiting
                  (format_prompt (some "Go?") none) none none 60 "T2")
                waitingWendyModule.user_feedback_states }
        "wendy" [("wendy", .feedback_required (format_prompt (some "Go?") none) none none)] ∧
    get_yes_no_feedback twoConnectedModule (some "Go?") none none (some "alice") 60 "T2" [] =
      ⟨(true, "correct"), twoConnectedModule, []⟩ :=
  ⟨(get_yes_no_feedback_connection_fallback twoWaitingModule ConnectionManager.init
      (some "Go?") none none "alice" 60 "T2" [] "x" []).1 rfl,
   (get_yes_no_feedback_connection_fallback waitingWendyModule
      ⟨[("wendy", [2])], [(2, "wendy")]⟩ (some "Go?") none none "alice" 60 "T2" []
      "wendy" [2]).2.1 rfl rfl rfl,
   (get_yes_no_feedback_connection_fallback twoConnectedModule
      ⟨[("wendy", [2]), ("walt", [3])], [(2, "wendy"), (3, "walt")]⟩
      (some "Go?") none none "alice" 60 "T2" [] "x" []).2.2 rfl rfl (by decide)⟩

/-! ### C4 — retrieval invariants: unique ids, at most N groups, cap M -/

/-- Invariant of the thread accumulator: pairwise-distinct thread ids and at
most `maxPer` collected messages per thread. -/
def ThreadInv (maxPer : Nat) (threads : ThreadAcc) : Prop :=
  (threads.map Prod.fst).Nodup ∧ ∀ p ∈ threads, p.2.length ≤ maxPer

theorem addMessage_inv (maxPer : Nat) (hM : 1 ≤ maxPer) (threads : ThreadAcc)
    (hinv : ThreadInv maxPer threads) (mid tid : String) :
    ThreadInv maxPer (addMessage threads maxPer mid tid) := by
  obtain ⟨hnd, hlen⟩ := hinv
  rcases hfind : alistFind tid threads with _ | msgs
  · have heq : addMessage threads maxPer mid tid =
        alistSet tid [⟨mid, tid, 1⟩] threads := by
      unfold addMessage
      rw [hfind]
    rw [heq]
    constructor
    · rw [alistSet_keys_of_not_mem tid _ threads hfind]
      refine List.Nodup.append hnd (List.nodup_singleton tid) ?_
      intro a ha hb
      simp only [List.mem_singleton] at hb
      exact alistFind_eq_none_of_not_mem tid threads hfind (hb ▸ ha)
    · intro p hp
      rcases mem_alistSet tid _ threads p hp with rfl | hmem
      · simpa using hM
      · exact hlen p hmem
  · have heq : addMessage threads maxPer mid tid =
        if msgs.length < maxPer then
          alistSet tid (msgs ++ [⟨mid, tid, msgs.length + 1⟩]) threads
        else threads := by
      unfold addMessage
      rw [hfind]
    rw [heq]
    by_cases hlt : msgs.length < maxPer
    · rw [if_pos hlt]
      constructor
      · rw [alistSet_keys_of_mem tid _ threads (by rw [hfind]; rfl)]
        exact hnd
      · intro p hp
        rcases mem_alistSet tid _ threads p hp with rfl | hmem
        · simpa using hlt
        · exact hlen p hmem
    · rw [if_neg hlt]
      exact ⟨hnd, hlen⟩

theorem processMsgs_inv (svc : GmailService) (maxPer numThreads : Nat) (hM : 1 ≤ maxPer)
    (excl : List String) :
    ∀ msgs : List MsgRef, ∀ threads : ThreadAcc, ∀ calls : List ProviderCall,
      ThreadInv maxPer threads →
      ThreadInv maxPer (processMsgs svc maxPer numThreads excl msgs threads calls).1 := by
  intro msgs
  induction msgs with
  | nil =>
    intro threads calls h
    simpa [processMsgs] using h
  | cons msg rest ih =>
    intro threads calls h
    simp only [processMsgs]
    split
    · exact h
    · split
      · exact ih _ _ h
      · exact ih _ _ (addMessage_inv maxPer hM threads h msg.id msg.threadId)

theorem processPages_inv (svc : GmailService) (maxPer numThreads : Nat) (hM : 1 ≤ maxPer)
    (excl incl : List String) :
    ∀ fuel : Nat, ∀ pt : Option Nat, ∀ fp : Bool, ∀ threads : ThreadAcc,
      ∀ calls : List ProviderCall, ThreadInv maxPer threads →
      ThreadInv maxPer (processPages svc maxPer numThreads excl incl fuel pt fp threads calls).1 := by
  intro fuel
  induction fuel with
  | zero =>
    intro pt fp threads calls h
    simpa [processPages] using h
  | succ n ih =>
    intro pt fp threads calls h
    simp only [processPages]
    split
    · exact h
    · split
      · exact h
      · split
        · exact h
        · split
          · exact processMsgs_inv svc maxPer numThreads hM excl _ _ _ h
          · exact ih _ _ _ _ (processMsgs_inv svc maxPer numThreads hM excl _ _ _ h)

theorem processTiers_inv (svc : GmailService) (maxPer numThreads fuel : Nat) (hM : 1 ≤ maxPer) :
    ∀ excT incT : List (List String), ∀ threads : ThreadAcc, ∀ calls : List ProviderCall,
      ThreadInv maxPer threads →
      ThreadInv maxPer (processTiers svc maxPer numThreads fuel excT incT threads calls).1 := by
  intro excT
  induction excT with
  | nil =>
    intro incT threads calls h
    simpa [processTiers] using h
  | cons e es ih =>
    intro incT threads calls h
    cases incT with
    | nil => simpa [processTiers] using h
    | cons i irest =>
      simp only [processTiers]
      split
      · exact h
      · exact ih _ _ _
          (processPages_inv svc maxPer numThreads hM e i fuel none true threads calls h)

/-- C4: for every provider behaviour and every valid configuration
(non-empty tier lists, cap at least 1), one retrieval call returns threads
with pairwise-distinct thread ids, at most `numThreads` threads, and at
most `maxPer` messages per thread. -/
theorem retrieval_unique_bounded (svc : GmailService) (excT incT : List (List String))
    (maxPer numThreads fuel : Nat) (hM : 1 ≤ maxPer) (hexc : excT ≠ []) (hinc : incT ≠ []) :
    ((get_last_n_emails_run svc excT incT maxPer numThreads fuel).1.map Prod.fst).Nodup ∧
    (get_last_n_emails_run svc excT incT maxPer numThreads fuel).1.length ≤ numThreads ∧
    ∀ p ∈ (get_last_n_emails_run svc excT incT maxPer numThreads fuel).1,
      p.2.length ≤ maxPer := by
  cases excT with
  | nil => exact absurd rfl hexc
  | cons e es =>
    cases incT with
    | nil => exact absurd rfl hinc
    | cons i irest =>
      obtain ⟨hnd, hlen⟩ :=
        processTiers_inv svc maxPer numThreads fuel hM (e :: es) (i :: irest) [] []
          ⟨by simp, by simp⟩
      refine ⟨?_, ?_, ?_⟩
      · simp only [get_last_n_emails_run, List.map_take]
        exact (List.take_sublist _ _).nodup hnd
      · simp only [get_last_n_emails_run]
        exact List.length_take_le _ _
      · intro p hp
        simp only [get_last_n_emails_run] at hp
        exact hlen p (List.take_subset _ _ hp)

/-- C4 witness: the concrete provider, the source's tier lists, cap 5,
target 2.  -/
theorem retrieval_unique_bounded_witness :
    ((get_last_n_emails_run sampleService sourceExcludeLabels sourceIncludeLabels
        5 2 3).1.map Prod.fst).Nodup ∧
    (get_last_n_emails_run sampleService sourceExcludeLabels sourceIncludeLabels
        5 2 3).1.length ≤ 2 ∧
    ∀ p ∈ (get_last_n_emails_run sampleService sourceExcludeLabels sourceIncludeLabels
        5 2 3).1, p.2.length ≤ 5 :=
  retrieval_unique_bounded sampleService sourceExcludeLabels sourceIncludeLabels 5 2 3
    (by decide) (by decide) (by decide)

/-! ### C5 — first-tier priority: no call with a later tier's filter -/

/-- The tier loop is a no-op once enough threads are collected. -/
theorem processTiers_stop (svc : GmailService) (maxPer numThreads fuel : Nat)
    (excT incT : List (List String)) (threads : ThreadAcc) (calls : List ProviderCall)
    (h : numThreads ≤ threads.length) :
    processTiers svc maxPer numThreads fuel excT incT threads calls = (threads, calls) := by
  cases excT with
  | nil => simp [processTiers]
  | cons e es =>
    cases incT with
    | nil => simp [processTiers]
    | cons i irest => simp [processTiers, h]

/-- Extending a call trace that only holds first-tier list calls by one such
call (or by a get call) preserves the property. -/
theorem calls_prop_append (i1 e1 : List String) (calls : List ProviderCall) (c0 : ProviderCall)
    (hc : ∀ c ∈ calls, ∀ il el pt, c = ProviderCall.listCall il el pt → il = i1 ∧ el = e1)
    (h0 : ∀ il el pt, c0 = ProviderCall.listCall il el pt → il = i1 ∧ el = e1) :
    ∀ c ∈ calls ++ [c0], ∀ il el pt, c = ProviderCall.listCall il el pt → il = i1 ∧ el = e1 := by
  intro c hcmem
  rcases List.mem_append.mp hcmem with hmem | hmem
  · exact hc c hmem
  · simp only [List.mem_singleton] at hmem
    exact hmem ▸ h0

/-- The message loop only appends get calls to the trace. -/
theorem processMsgs_calls_from (svc : GmailService) (maxPer numThreads : Nat)
    (excl i1 e1 : List String) :
    ∀ msgs : List MsgRef, ∀ threads : ThreadAcc, ∀ calls : List ProviderCall,
      (∀ c ∈ calls, ∀ il el pt, c = ProviderCall.listCall il el pt → il = i1 ∧ el = e1) →
      ∀ c ∈ (processMsgs svc maxPer numThreads excl msgs threads calls).2,
        ∀ il el pt, c = ProviderCall.listCall il el pt → il = i1 ∧ el = e1 := by
  intro msgs
  induction msgs with
  | nil =>
    intro threads calls hc
    simpa [processMsgs] using hc
  | cons msg rest ih =>
    intro threads calls hc
    have hc' := calls_prop_append i1 e1 calls (ProviderCall.getCall msg.id) hc
      (by intro il el pt hceq; cases hceq)
    simp only [processMsgs]
    split
    · exact hc
    · split
      · exact ih _ _ hc'
      · exact ih _ _ hc'

/-- Paging one tier only appends get calls and list calls carrying that
tier's own filters. -/
theorem processPages_calls_from (svc : GmailService) (maxPer numThreads : Nat)
    (e1 i1 : List String) :
    ∀ fuel : Nat, ∀ pt : Option Nat, ∀ fp : Bool, ∀ threads : ThreadAcc,
      ∀ calls : List ProviderCall,
      (∀ c ∈ calls, ∀ il el pt', c = ProviderCall.listCall il el pt' → il = i1 ∧ el = e1) →
      ∀ c ∈ (processPages svc maxPer numThreads e1 i1 fuel pt fp threads calls).2,
        ∀ il el pt', c = ProviderCall.listCall il el pt' → il = i1 ∧ el = e1 := by
  intro fuel
  induction fuel with
  | zero =>
    intro pt fp threads calls hc
    simpa [processPages] using hc
  | succ n ih =>
    intro pt fp threads calls hc
    have hc' := calls_prop_append i1 e1 calls (ProviderCall.listCall i1 e1 pt) hc
      (by intro il el pt' hceq; cases hceq; exact ⟨rfl, rfl⟩)
    have hmsgs := processMsgs_calls_from svc maxPer numThreads e1 i1 e1
      (svc.listPage i1 e1 pt).messages threads
      (calls ++ [ProviderCall.listCall i1 e1 pt]) hc'
    simp only [processPages]
    split
    · exact hc
    · split
      · exact hc
      · split
        · exact hc'
        · split
          · exact hmsgs
          · exact ih _ _ _ _ hmsgs

/-- C5: if paging the first tier alone already accumulates at least
`numThreads` threads, the full retrieval behaves exactly as a retrieval
configured with the first tier only, and every provider list call it makes
carries the first tier's inclusion and exclusion filters — no call uses the
filter of tier 2 or any later tier. -/
theorem retrieval_first_tier_lazy (svc : GmailService) (e1 i1 : List String)
    (eRest iRest : List (List String)) (maxPer numThreads fuel : Nat)
    (h : numThreads ≤ (processPages svc maxPer numThreads e1 i1 fuel none true [] []).1.length) :
    get_last_n_emails_run svc (e1 :: eRest) (i1 :: iRest) maxPer numThreads fuel =
      get_last_n_emails_run svc [e1] [i1] maxPer numThreads fuel ∧
    ∀ c ∈ (get_last_n_emails_run svc (e1 :: eRest) (i1 :: iRest) maxPer numThreads fuel).2,
      ∀ il el pt, c = ProviderCall.listCall il el pt → il = i1 ∧ el = e1 := by
  by_cases h0 : numThreads ≤ 0
  · constructor
    · simp [get_last_n_emails_run, processTiers, h0]
    · intro c hc il el pt hceq
      simp [get_last_n_emails_run, processTiers, h0] at hc
  · have hL : processTiers svc maxPer numThreads fuel (e1 :: eRest) (i1 :: iRest) [] [] =
        ((processPages svc maxPer numThreads e1 i1 fuel none true [] []).1,
         (processPages svc maxPer numThreads e1 i1 fuel none true [] []).2) := by
      simp only [processTiers]
      rw [if_neg (by simpa using h0)]
      exact processTiers_stop svc maxPer numThreads fuel eRest iRest _ _ h
    have hR : processTiers svc maxPer numThreads fuel [e1] [i1] [] [] =
        ((processPages svc maxPer numThreads e1 i1 fuel none true [] []).1,
         (processPages svc maxPer numThreads e1 i1 fuel none true [] []).2) := by
      simp only [processTiers]
      rw [if_neg (by simpa using h0)]
    constructor
    · simp only [get_last_n_emails_run]
      rw [hL, hR]
    · intro c hc il el pt hceq
      simp only [get_last_n_emails_run, hL] at hc
      exact processPages_calls_from svc maxPer numThreads e1 i1 fuel none true [] []
        (by intro c0 hc0; simp at hc0) c hc il el pt hceq

/-- C5 witness: with target 1, the first source tier alone already yields
one thread on the concrete provider, and the full four-tier retrieval
equals the one-tier retrieval with all list calls on tier 1. -/
theorem retrieval_first_tier_lazy_witness :
    get_last_n_emails_run sampleService sourceExcludeLabels sourceIncludeLabels 5 1 3 =
      get_last_n_emails_run sampleService [["CATEGORY_SOCIAL", "CATEGORY_PROMOTIONS",
        "CATEGORY_UPDATES", "CATEGORY_FORUMS"]] [["UNREAD", "INBOX", "IMPORTANT"]] 5 1 3 ∧
    ∀ c ∈ (get_last_n_emails_run sampleService sourceExcludeLabels sourceIncludeLabels 5 1 3).2,
      ∀ il el pt, c = ProviderCall.listCall il el pt →
        il = ["UNREAD", "INBOX", "IMPORTANT"] ∧
        el = ["CATEGORY_SOCIAL", "CATEGORY_PROMOTIONS", "CATEGORY_UPDATES", "CATEGORY_FORUMS"] :=
  retrieval_first_tier_lazy sampleService
    ["CATEGORY_SOCIAL", "CATEGORY_PROMOTIONS", "CATEGORY_UPDATES", "CATEGORY_FORUMS"]
    ["UNREAD", "INBOX", "IMPORTANT"]
    [["CATEGORY_SOCIAL", "CATEGORY_PROMOTIONS", "CATEGORY_UPDATES", "CATEGORY_FORUMS", "UNREAD"],
     ["CATEGORY_SOCIAL", "CATEGORY_PROMOTIONS", "CATEGORY_UPDATES", "CATEGORY_FORUMS", "IMPORTANT"],
     ["CATEGORY_SOCIAL", "CATEGORY_PROMOTIONS", "CATEGORY_UPDATES", "CATEGORY_FORUMS", "IMPORTANT",
      "READ"]]
    [["INBOX", "IMPORTANT"], ["UNREAD", "INBOX"], ["INBOX"]] 5 1 3 (by decide)
